import Mathlib

/-!
# Verification of the WiFi-Geolocation pipeline against its specification

Shallow embedding of the repository's core logic:

* `SSIDExtractor.py` — candidate extraction and validation
  (`_is_valid_ssid`, `extract_ssids`);
* `DataValidator.py` — `validate_coordinates`;
* `GeoMapper.py` — the WiGLE resolver with cache, failure memoization and
  rate limiting (`_load_cache`, `query_wigle`, `map_all`);
* `main.py` — the driver loop that validates coordinates after resolution.

Python strings are Lean `String`s; Python `dict`s are association lists with
in-place update; floats (coordinates) are rationals `ℚ`; the network, the
map-artifact writer and JSON (de)serialization — external collaborators in
the spec — become explicit parameters.  Effects that the specification talks
about (live queries, cache persists, rate-limit sleeps) are counted
explicitly in the state.
-/

/-! ## Character and string helpers (Python `str` methods) -/

/-- Python whitespace as stripped by `str.strip()` with no argument
(restricted to the ASCII whitespace characters; the repository's inputs are
ASCII capture lines). -/
def isPyWs (c : Char) : Bool :=
  c = ' ' ∨ c = '\t' ∨ c = '\n' ∨ c = '\r' ∨ c = '\x0b' ∨ c = '\x0c'

/-- Drop characters satisfying `p` from both ends of a list. -/
def dropEnds (p : Char → Bool) (l : List Char) : List Char :=
  ((l.dropWhile p).reverse.dropWhile p).reverse

/-- Python `s.strip()` (no argument): leading/trailing whitespace removed. -/
def pyStrip (s : String) : String :=
  String.mk (dropEnds isPyWs s.toList)

/-- Python `s.strip('"')`: leading/trailing double-quote characters removed
(`SSIDExtractor.py` line 22). -/
def stripQuotes (s : String) : String :=
  String.mk (dropEnds (fun c => c = '"') s.toList)

/-- ASCII hexadecimal digit, the character class `[0-9a-fA-F]`. -/
def isHexAscii (c : Char) : Bool :=
  ('0' ≤ c ∧ c ≤ '9') ∨ ('a' ≤ c ∧ c ≤ 'f') ∨ ('A' ≤ c ∧ c ≤ 'F')

/-- ASCII alphanumeric, the character class `[a-zA-Z0-9]`. -/
def isAsciiAlnum (c : Char) : Bool :=
  ('0' ≤ c ∧ c ≤ '9') ∨ ('a' ≤ c ∧ c ≤ 'z') ∨ ('A' ≤ c ∧ c ≤ 'Z')

/-- Python `s.startswith(p)`: prefix test on the character sequence. -/
def strStartsWith (s p : String) : Bool :=
  p.toList.isPrefixOf s.toList

/-- Python `s.lower()`; the SSID patterns compared against are ASCII, so the
ASCII lowering of `Char.toLower` is faithful here. -/
def asciiLower (s : String) : String :=
  String.mk (s.toList.map Char.toLower)

/-! ## `SSIDExtractor._is_valid_ssid` (SSIDExtractor.py lines 13-63)

Each rejection rule of the source's if-chain becomes one named boolean
predicate on the raw candidate (post whitespace-strip, as handed to
`_is_valid_ssid`).  Note the quote-strip of line 22 happens *after* the
`empty` check of line 18, so every rule except `empty` looks at
`stripQuotes s`. -/

/-- Line 18: `if not ssid`. -/
def ruleEmpty (s : String) : Bool :=
  s = ""

/-- Line 25: `if len(ssid) < 1 or len(ssid) > 32`. -/
def ruleInvalidLength (s : String) : Bool :=
  (stripQuotes s).length < 1 ∨ 32 < (stripQuotes s).length

/-- Line 29: `if ssid.startswith("0000") or ssid == "000000000000000000"`. -/
def rulePlaceholderZeros (s : String) : Bool :=
  strStartsWith (stripQuotes s) "0000" ∨ stripQuotes s = "000000000000000000"

/-- Line 33: `if ssid.lower().startswith("wildcard")`. -/
def ruleWildcard (s : String) : Bool :=
  strStartsWith (asciiLower (stripQuotes s)) "wildcard"

/-- Line 37: `re.match(r'^[0-9a-fA-F]{12,}$', ssid)`.  In Python `$` matches
at the end of the string or just before a single trailing newline, hence the
second disjunct. -/
def ruleHexPattern (s : String) : Bool :=
  let l := (stripQuotes s).toList
  (decide (12 ≤ l.length) && l.all isHexAscii) ||
    (match l.getLast? with
     | some c => decide (c = '\n') && decide (12 ≤ l.dropLast.length) && l.dropLast.all isHexAscii
     | none => false)

/-- Line 41: `if not re.search(r'[a-zA-Z0-9]', ssid)`. -/
def ruleNoAlphanumeric (s : String) : Bool :=
  ¬ (stripQuotes s).toList.any isAsciiAlnum

/-- Line 45: `any(ord(c) < 32 or ord(c) > 126 for c in ssid if c not in [' '])`. -/
def ruleInvalidChars (s : String) : Bool :=
  (stripQuotes s).toList.any (fun c => c ≠ ' ' ∧ (c.toNat < 32 ∨ 126 < c.toNat))

/-- Lines 49-57: the fixed list of default-device prefixes. -/
def placeholderPatterns : List String :=
  ["test", "default", "linksys", "netgear", "dlink", "admin", "setup"]

/-- Lines 59-61: `re.match(pattern, ssid, re.IGNORECASE)` for each `^`-anchored
pattern, i.e. a case-insensitive prefix test. -/
def ruleCommonPlaceholder (s : String) : Bool :=
  placeholderPatterns.any (fun p => strStartsWith (asciiLower (stripQuotes s)) p)

/-- `SSIDExtractor._is_valid_ssid`: the source's if-chain, first matching rule
wins; returns the `(is_valid, reason)` pair. -/
def is_valid_ssid (s : String) : Bool × String :=
  if ruleEmpty s then (false, "empty")
  else if ruleInvalidLength s then (false, "invalid_length")
  else if rulePlaceholderZeros s then (false, "placeholder_zeros")
  else if ruleWildcard s then (false, "wildcard")
  else if ruleHexPattern s then (false, "hex_pattern")
  else if ruleNoAlphanumeric s then (false, "no_alphanumeric")
  else if ruleInvalidChars s then (false, "invalid_characters")
  else if ruleCommonPlaceholder s then (false, "common_placeholder")
  else (true, "valid")

/-- The validation rules in the fixed order of the source, each paired with
its reason string. -/
def ruleList : List (String × (String → Bool)) :=
  [("empty", ruleEmpty),
   ("invalid_length", ruleInvalidLength),
   ("placeholder_zeros", rulePlaceholderZeros),
   ("wildcard", ruleWildcard),
   ("hex_pattern", ruleHexPattern),
   ("no_alphanumeric", ruleNoAlphanumeric),
   ("invalid_characters", ruleInvalidChars),
   ("common_placeholder", ruleCommonPlaceholder)]

/-- The first rule of `ruleList` matching `s`, if any: the spec's
"first matching rule wins" reading of §4.1. -/
def firstRejection (s : String) : Option String :=
  (ruleList.find? (fun p => p.2 s)).map Prod.fst

/-! ## `SSIDExtractor.extract_ssids` (SSIDExtractor.py lines 65-95) -/

/-- The two extraction regexes, applied per line.
`re.search(r'SSID="([^"]*)"', line)` scans left to right for the literal
marker `SSID="` followed (possibly after non-quote characters) by a closing
`"`; the capture is the text between the quotes. -/
def findQuoted : List Char → Option (List Char)
  | [] => none
  | c :: cs =>
    if ("SSID=\"".toList).isPrefixOf (c :: cs) then
      match takeBeforeQuote ((c :: cs).drop 6) with
      | some g => some g
      | none => findQuoted cs
    else findQuoted cs
where
  /-- Characters before the next `"`, or `none` when no `"` follows. -/
  takeBeforeQuote : List Char → Option (List Char)
    | [] => none
    | d :: ds => if d = '"' then some [] else (takeBeforeQuote ds).map (d :: ·)

/-- Fallback `re.search(r'SSID=([^\s,]+)', line)`: scan for the literal
`SSID=` immediately followed by at least one character that is neither
whitespace nor a comma; the capture is the maximal such run. -/
def findUnquoted : List Char → Option (List Char)
  | [] => none
  | c :: cs =>
    if ("SSID=".toList).isPrefixOf (c :: cs) &&
        (match (c :: cs).drop 5 with
         | d :: _ => ! (isPyWs d || decide (d = ','))
         | [] => false) then
      some (((c :: cs).drop 5).takeWhile (fun d => ¬ (isPyWs d ∨ d = ',')))
    else findUnquoted cs

/-- Lines 74-78: the quoted pattern first, then the unquoted fallback;
at most one candidate per line. -/
def extractCandidate (line : String) : Option String :=
  match findQuoted line.toList with
  | some g => some (String.mk g)
  | none => (findUnquoted line.toList).map String.mk

/-- State accumulated by `extract_ssids`: the deduplicated set of valid
SSIDs (Python `set`, modelled as a duplicate-free list — membership is the
faithful part, iteration order of a Python set is abstracted), the total
filtered count and the reason tally (Python dict, insertion-ordered). -/
structure ExtractState where
  ssids : List String
  filtered_count : Nat
  filter_reasons : List (String × Nat)
deriving DecidableEq, Repr

/-- `self.filter_reasons[reason] = self.filter_reasons.get(reason, 0) + 1`. -/
def bump : List (String × Nat) → String → List (String × Nat)
  | [], r => [(r, 1)]
  | (k, n) :: rest, r => if k = r then (k, n + 1) :: rest else (k, n) :: bump rest r

/-- `self.filter_reasons.get(r, 0)`. -/
def reasonCount : List (String × Nat) → String → Nat
  | [], _ => 0
  | (k, n) :: rest, r => if k = r then n else reasonCount rest r

/-- Python `set.add`. -/
def insertNew (l : List String) (s : String) : List String :=
  if s ∈ l then l else l ++ [s]

/-- Lines 73-88: one line of the extraction loop. -/
def processLine (st : ExtractState) (line : String) : ExtractState :=
  match extractCandidate line with
  | none => st
  | some g =>
    let ssid := pyStrip g
    match is_valid_ssid ssid with
    | (true, _) => { st with ssids := insertNew st.ssids ssid }
    | (false, r) =>
      { st with
        filtered_count := st.filtered_count + 1,
        filter_reasons := bump st.filter_reasons r }

/-- `SSIDExtractor.extract_ssids` over a list of capture lines. -/
def extract_ssids (lines : List String) : ExtractState :=
  lines.foldl processLine ⟨[], 0, []⟩

/-! ## `DataValidator.validate_coordinates` (DataValidator.py lines 75-93)

Coordinates are rationals; the source's `float()` conversion is the identity
on numeric input (the non-numeric `TypeError` branch is outside the numeric
domain the claims quantify over).  The interpolated values in the message
strings are elided. -/

def validate_coordinates (lat lon : ℚ) : Bool × String :=
  if ¬ (-90 ≤ lat ∧ lat ≤ 90) then (false, "Invalid latitude")
  else if ¬ (-180 ≤ lon ∧ lon ≤ 180) then (false, "Invalid longitude")
  else if lat = 0 ∧ lon = 0 then (false, "Suspicious coordinates (0,0)")
  else (true, "Valid coordinates")

/-! ## `GeoMapper` (GeoMapper.py)

The cache (a JSON-persisted Python dict from SSID to either a location dict
`{ssid, lat, lon, map_generated}` or a failure marker `{failed: true,
reason}`) becomes an association list from `String` to `CacheEntry`.  The
mutable `GeoMapper` attributes the resolver logic reads and writes —
`self.cache` and `self.new_discoveries` — form `GeoState`, together with two
effect counters: `saves` counts `_save_cache()` calls (each one persists the
whole cache, write-through) and `queries` counts live `requests.get` calls.
The WiGLE network is a function from the queried SSID to a `WigleResponse`;
`MapVisualiser.create_individual_map` (pure artifact output) is modelled as
always succeeding, i.e. returning a path, its only failure mode in the
source being a file-save exception. -/

/-- One entry of the first `results` element the source reads
(`result.get("trilat")`, `result.get("trilong")`); `none` models a missing
key (Python `None`). -/
structure WigleResult where
  trilat : Option ℚ
  trilong : Option ℚ
deriving DecidableEq, Repr

/-- Outcome of one live `requests.get` call, covering the four branches of
`query_wigle` lines 113-143: a raised `RequestException`, a non-200 status,
a JSON decode failure, or a decoded body with `success`, `resultCount` and
`results` fields. -/
inductive WigleResponse where
  | netError (msg : String)
  | httpError (code : Nat)
  | badJson
  | ok (success : Bool) (resultCount : Int) (results : List WigleResult)
deriving DecidableEq, Repr

/-- A successful location dict `{"ssid": ..., "lat": ..., "lon": ...,
"map_generated": ...}` (line 147). -/
structure LocRecord where
  ssid : String
  lat : ℚ
  lon : ℚ
  map_generated : Bool
deriving DecidableEq, Repr

/-- A cache value: either a success record or a failure marker
`{"failed": True, "reason": ...}`. -/
inductive CacheEntry where
  | success (lr : LocRecord)
  | failed (reason : String)
deriving DecidableEq, Repr

/-- The persisted cache, a Python dict (insertion-ordered association list
with at most one binding per key). -/
abbrev Cache := List (String × CacheEntry)

/-- Python `cache[k]` / `k in cache`. -/
def cGet : Cache → String → Option CacheEntry
  | [], _ => none
  | (k, v) :: rest, key => if k = key then some v else cGet rest key

/-- Python `cache[k] = v`: replace in place, or append a fresh binding. -/
def cSet : Cache → String → CacheEntry → Cache
  | [], key, v => [(key, v)]
  | (k, w) :: rest, key, v =>
    if k = key then (k, v) :: rest else (k, w) :: cSet rest key v

/-- The mutable resolver state plus effect counters. -/
structure GeoState where
  cache : Cache
  new_discoveries : List String
  saves : Nat
  queries : Nat
deriving DecidableEq, Repr

/-- Resolver configuration: `self.mock_mode` (credentials absent) and
`self.generate_individual_maps`. -/
structure GeoConfig where
  mock_mode : Bool
  generate_individual_maps : Bool
deriving DecidableEq, Repr

/-- `GeoMapper.query_wigle` (lines 66-173).  Returns the Python return value
(`None` or the location dict) together with the updated state.

The branch on an empty `results` list under `success ∧ resultCount > 0` is
unreachable for well-formed WiGLE responses (`WFNet` below); there the
source would raise an uncaught `IndexError` at `data["results"][0]`, and the
model falls through to the no-result path. -/
def query_wigle (cfg : GeoConfig) (net : String → WigleResponse)
    (st : GeoState) (ssid0 : String) : Option LocRecord × GeoState :=
  let ssid := pyStrip ssid0
  if ssid = "" then (none, st)
  else
    match cGet st.cache ssid with
    | some (CacheEntry.failed _) =>
      -- lines 77-79: memoized negative result, skip
      (none, st)
    | some (CacheEntry.success lr) =>
      -- lines 82-103: cached success; lazily generate a map once
      if cfg.generate_individual_maps ∧ ssid ∉ st.new_discoveries ∧
          lr.map_generated = false then
        let lr' := { lr with map_generated := true }
        (some lr',
         { st with
            cache := cSet st.cache ssid (CacheEntry.success lr'),
            saves := st.saves + 1,
            new_discoveries := ssid :: st.new_discoveries })
      else (some lr, st)
    | none =>
      if cfg.mock_mode then
        -- lines 106-108: mock mode, no query, no cache write
        (none, st)
      else
        -- lines 110-173: live query
        let stq := { st with queries := st.queries + 1 }
        let fail := fun (reason : String) =>
          (none,
           { stq with
              cache := cSet stq.cache ssid (CacheEntry.failed reason),
              saves := stq.saves + 1 })
        match net ssid with
        | WigleResponse.netError m => fail ("Network error: " ++ m)
        | WigleResponse.httpError c => fail ("HTTP " ++ toString c)
        | WigleResponse.badJson => fail "Invalid JSON"
        | WigleResponse.ok success cnt results =>
          if success = true ∧ 0 < cnt then
            match results with
            | [] => fail "No location data found"  -- see doc comment
            | r :: _ =>
              match r.trilat, r.trilong with
              | some lat, some lon =>
                -- line 146 `if lat and lon`: Python numeric truthiness,
                -- so a 0 coordinate is treated like a missing one
                if lat ≠ 0 ∧ lon ≠ 0 then
                  if cfg.generate_individual_maps then
                    let lr : LocRecord := ⟨ssid, lat, lon, true⟩
                    (some lr,
                     { stq with
                        cache := cSet stq.cache ssid (CacheEntry.success lr),
                        saves := stq.saves + 2,
                        new_discoveries := ssid :: stq.new_discoveries })
                  else
                    let lr : LocRecord := ⟨ssid, lat, lon, false⟩
                    (some lr,
                     { stq with
                        cache := cSet stq.cache ssid (CacheEntry.success lr),
                        saves := stq.saves + 1 })
                else fail "No location data found"
              | _, _ => fail "No location data found"
          else fail "No location data found"

/-- Result of a batch run: the collected location list, the final state and
the number of `time.sleep(self.delay)` calls. -/
structure BatchResult where
  out : List LocRecord
  state : GeoState
  sleeps : Nat
deriving DecidableEq, Repr

/-- `GeoMapper.map_all` (lines 178-200).  The sleep guard of line 188 tests
the *raw* loop variable `ssid` against the cache *after* `query_wigle` has
run, and `i < len(ssid_list)` means "not the last element".  The summary-map
call at the end touches no resolver state and is elided. -/
def map_all (cfg : GeoConfig) (net : String → WigleResponse) :
    GeoState → List String → BatchResult
  | st, [] => ⟨[], st, 0⟩
  | st, ssid :: rest =>
    let step := query_wigle cfg net st ssid
    let doSleep :=
      if cfg.mock_mode = false ∧ cGet step.2.cache ssid = none ∧ rest ≠ [] then 1 else 0
    let r := map_all cfg net step.2 rest
    ⟨step.1.toList ++ r.out, r.state, doSleep + r.sleeps⟩

/-- The per-SSID loop of `main.py` lines 59-81: query, then validate the
returned coordinates with `DataValidator.validate_coordinates`, appending to
`mapped_locations` only when valid; same sleep guard as `map_all`. -/
def main_process (cfg : GeoConfig) (net : String → WigleResponse) :
    GeoState → List String → BatchResult
  | st, [] => ⟨[], st, 0⟩
  | st, ssid :: rest =>
    let step := query_wigle cfg net st ssid
    let keep :=
      match step.1 with
      | some l => (validate_coordinates l.lat l.lon).1
      | none => false
    let doSleep :=
      if cfg.mock_mode = false ∧ cGet step.2.cache ssid = none ∧ rest ≠ [] then 1 else 0
    let r := main_process cfg net step.2 rest
    ⟨(if keep then step.1.toList else []) ++ r.out, r.state, doSleep + r.sleeps⟩

/-- `GeoMapper._load_cache` (lines 43-52): `file` is the persisted cache
file's contents when the file exists; `parse` abstracts `json.load`, `none`
meaning any exception while reading/deserializing.  A missing file and a
corrupt file both yield the empty store; loading never fails. -/
def load_cache (file : Option String) (parse : String → Option Cache) : Cache :=
  match file with
  | none => []
  | some s =>
    match parse s with
    | some c => c
    | none => []

/-- Well-formed WiGLE responses: a reported positive `resultCount` comes
with a non-empty `results` array.  This is the domain on which the model's
`query_wigle` coincides with the source (see `query_wigle`'s doc comment). -/
def WFNet (net : String → WigleResponse) : Prop :=
  ∀ s, match net s with
    | WigleResponse.ok _ cnt results => 0 < cnt → results ≠ []
    | _ => True

/-! ## Notions used to state and prove idempotence of the batch resolver -/

/-- The location a batch step emits for name `n` when the cache `c` already
settles `n`: the cached success record, or nothing. -/
def emit (c : Cache) (n : String) : Option LocRecord :=
  if pyStrip n = "" then none
  else
    match cGet c (pyStrip n) with
    | some (CacheEntry.success lr) => some lr
    | _ => none

/-- `n` is *settled* in cache `c` under configuration `cfg`: resolving `n`
again performs no live query and leaves the state untouched.  Either the
trimmed name is empty, or the cache memoizes a failure, or it memoizes a
success whose lazy map generation can no longer fire, or mock mode makes an
uncached name a no-op. -/
def settledAt (cfg : GeoConfig) (c : Cache) (n : String) : Prop :=
  pyStrip n = "" ∨
  (∃ r, cGet c (pyStrip n) = some (CacheEntry.failed r)) ∨
  (∃ lr, cGet c (pyStrip n) = some (CacheEntry.success lr) ∧
     (cfg.generate_individual_maps = true → lr.map_generated = true)) ∨
  (cfg.mock_mode = true ∧ cGet c (pyStrip n) = none)

/-- Invariant of `self.new_discoveries` maintained by the source: a name is
added only together with a cache write of a success record whose
`map_generated` flag is set. -/
def DiscInv (st : GeoState) : Prop :=
  ∀ t ∈ st.new_discoveries,
    ∃ lr, cGet st.cache t = some (CacheEntry.success lr) ∧ lr.map_generated = true

/-- The only cache writes a `query_wigle` step can perform: none at all, or
a single write at the trimmed name — either a live-query outcome at an
uncached key outside mock mode, or the lazy-map rewrite of a success record
whose map was not yet generated. -/
def cacheWriteShape (cfg : GeoConfig) (st : GeoState) (n : String) (c' : Cache) : Prop :=
  c' = st.cache ∨
  (pyStrip n ≠ "" ∧ ∃ e, c' = cSet st.cache (pyStrip n) e ∧
    ((cGet st.cache (pyStrip n) = none ∧ cfg.mock_mode = false) ∨
     (∃ lr, cGet st.cache (pyStrip n) = some (CacheEntry.success lr) ∧
        cfg.generate_individual_maps = true ∧ lr.map_generated = false)))

/-! ## Basic cache lemmas -/

theorem cGet_cSet_self (c : Cache) (k : String) (v : CacheEntry) :
    cGet (cSet c k v) k = some v := by
  induction c with
  | nil => simp [cGet, cSet]
  | cons hd tl ih =>
    obtain ⟨k', v'⟩ := hd
    by_cases h : k' = k <;> simp [cGet, cSet, h, ih]

theorem cGet_cSet_ne (c : Cache) (k k' : String) (v : CacheEntry)
    (h : k' ≠ k) : cGet (cSet c k v) k' = cGet c k' := by
  have h' : ¬ k = k' := fun hh => h hh.symm
  induction c with
  | nil => simp [cGet, cSet, h']
  | cons hd tl ih =>
    obtain ⟨k₀, v₀⟩ := hd
    by_cases h0 : k₀ = k
    · subst h0
      simp [cGet, cSet, h']
    · simp only [cSet, if_neg h0, cGet]
      by_cases h1 : k₀ = k' <;> simp [h1, ih]

/-! ## Step lemmas for `query_wigle` -/

/-- A settled name is answered wholly from the cache: the step returns the
memoized emission and the state — cache, discoveries, persist counter and
live-query counter — is untouched. -/
theorem settled_step_id (cfg : GeoConfig) (net : String → WigleResponse)
    (st : GeoState) (n : String) (h : settledAt cfg st.cache n) :
    query_wigle cfg net st n = (emit st.cache n, st) := by
  rcases h with he | ⟨r, hf⟩ | ⟨lr, hs, hmg⟩ | ⟨hm, hn⟩
  · simp [query_wigle, emit, he]
  · by_cases he : pyStrip n = ""
    · simp [query_wigle, emit, he]
    · simp [query_wigle, emit, he, hf]
  · by_cases he : pyStrip n = ""
    · simp [query_wigle, emit, he]
    · have hguard :
        ¬ (cfg.generate_individual_maps = true ∧ pyStrip n ∉ st.new_discoveries ∧
            lr.map_generated = false) := by
        rintro ⟨h1, -, h3⟩
        rw [hmg h1] at h3
        cases h3
      simp [query_wigle, emit, he, hs, hguard]
  · by_cases he : pyStrip n = ""
    · simp [query_wigle, emit, he]
    · simp [query_wigle, emit, he, hn, hm]

/-- Settledness depends only on the cache entry at the trimmed name. -/
theorem settledAt_congr (cfg : GeoConfig) (c c' : Cache) (m : String)
    (h : cGet c' (pyStrip m) = cGet c (pyStrip m)) (hs : settledAt cfg c m) :
    settledAt cfg c' m := by
  unfold settledAt at hs ⊢
  rw [h]
  exact hs

/-- Emission depends only on the cache entry at the trimmed name. -/
theorem emit_congr (c c' : Cache) (m : String)
    (h : cGet c' (pyStrip m) = cGet c (pyStrip m)) : emit c' m = emit c m := by
  unfold emit
  rw [h]

/-- A write at an uncached key (outside mock mode) does not move the entry of
any settled name. -/
theorem entry_stable_of_write_none (cfg : GeoConfig) (c : Cache) (t : String)
    (e : CacheEntry) (ht : t ≠ "") (hc : cGet c t = none)
    (hmock : cfg.mock_mode = false) :
    ∀ m, settledAt cfg c m → cGet (cSet c t e) (pyStrip m) = cGet c (pyStrip m) := by
  intro m hm
  by_cases hmn : pyStrip m = t
  · exfalso
    rcases hm with he | ⟨r, hf⟩ | ⟨lr, hs, -⟩ | ⟨hmk, -⟩
    · exact ht (hmn ▸ he)
    · rw [hmn, hc] at hf; cases hf
    · rw [hmn, hc] at hs; cases hs
    · rw [hmk] at hmock; cases hmock
  · exact cGet_cSet_ne c t (pyStrip m) e hmn

/-- A lazy-map write over a success record whose map was not yet generated
does not move the entry of any settled name. -/
theorem entry_stable_of_write_success (cfg : GeoConfig) (c : Cache) (t : String)
    (e : CacheEntry) (lr : LocRecord) (ht : t ≠ "")
    (hc : cGet c t = some (CacheEntry.success lr))
    (hmap : cfg.generate_individual_maps = true) (hgen : lr.map_generated = false) :
    ∀ m, settledAt cfg c m → cGet (cSet c t e) (pyStrip m) = cGet c (pyStrip m) := by
  intro m hm
  by_cases hmn : pyStrip m = t
  · exfalso
    rcases hm with he | ⟨r, hf⟩ | ⟨lr₂, hs, hmg⟩ | ⟨-, hn⟩
    · exact ht (hmn ▸ he)
    · rw [hmn, hc] at hf; cases hf
    · rw [hmn, hc] at hs
      injection hs with hs
      cases hs
      rw [hmg hmap] at hgen
      cases hgen
    · rw [hmn, hc] at hn; cases hn
  · exact cGet_cSet_ne c t (pyStrip m) e hmn

/-- A write at an uncached key preserves the discovery invariant (list
form): every discovered name keeps its generated success record. -/
theorem discinv_write_uncached (c : Cache) (disc : List String) (t : String)
    (e : CacheEntry) (hc : cGet c t = none)
    (hd : ∀ u ∈ disc, ∃ lr, cGet c u = some (CacheEntry.success lr) ∧
            lr.map_generated = true) :
    ∀ u ∈ disc, ∃ lr, cGet (cSet c t e) u = some (CacheEntry.success lr) ∧
      lr.map_generated = true := by
  intro u hu
  obtain ⟨lr, hget, hgen⟩ := hd u hu
  have hut : u ≠ t := by
    intro h
    rw [h, hc] at hget
    cases hget
  exact ⟨lr, by rw [cGet_cSet_ne c t u e hut]; exact hget, hgen⟩



/-- A step whose cache change respects `cacheWriteShape` does not move the
entry of any settled name. -/
theorem shape_settled_stable (cfg : GeoConfig) (st : GeoState) (n : String)
    (c' : Cache) (hs : cacheWriteShape cfg st n c') :
    ∀ m, settledAt cfg st.cache m → cGet c' (pyStrip m) = cGet st.cache (pyStrip m) := by
  rcases hs with h | ⟨he, e, hset, hcase⟩
  · intro m _
    rw [h]
  · intro m hm
    rw [hset]
    rcases hcase with ⟨hc, hm'⟩ | ⟨lr, hc, hmap, hgen⟩
    · exact entry_stable_of_write_none cfg st.cache _ e he hc hm' m hm
    · exact entry_stable_of_write_success cfg st.cache _ e lr he hc hmap hgen m hm

/-- A step whose cache change respects `cacheWriteShape` never overwrites a
memoized failure. -/
theorem shape_failed_stable (cfg : GeoConfig) (st : GeoState) (n : String)
    (c' : Cache) (k : String) (r : String) (hs : cacheWriteShape cfg st n c')
    (hk : cGet st.cache k = some (CacheEntry.failed r)) :
    cGet c' k = some (CacheEntry.failed r) := by
  rcases hs with h | ⟨he, e, hset, hcase⟩
  · rw [h]
    exact hk
  · rw [hset]
    by_cases hkn : k = pyStrip n
    · exfalso
      rw [hkn] at hk
      rcases hcase with ⟨hc, -⟩ | ⟨lr, hc, -, -⟩
      · rw [hc] at hk
        cases hk
      · rw [hc] at hk
        injection hk with hk
        cases hk
    · rw [cGet_cSet_ne _ _ _ _ hkn]
      exact hk

/-- Master case analysis of one `query_wigle` step: it maintains the
discovery invariant, leaves the processed name settled, emits exactly what
the post-state cache memoizes for that name, and only writes the cache in
the two shapes of `cacheWriteShape`. -/
theorem query_step_master (cfg : GeoConfig) (net : String → WigleResponse)
    (st : GeoState) (n : String) :
    (DiscInv st → DiscInv (query_wigle cfg net st n).2) ∧
    (DiscInv st → settledAt cfg (query_wigle cfg net st n).2.cache n) ∧
    (query_wigle cfg net st n).1 = emit (query_wigle cfg net st n).2.cache n ∧
    cacheWriteShape cfg st n (query_wigle cfg net st n).2.cache := by
  by_cases he : pyStrip n = ""
  · have hq : query_wigle cfg net st n = (none, st) := by simp [query_wigle, he]
    rw [hq]
    exact ⟨fun hd => hd, fun _ => Or.inl he, by simp [emit, he], Or.inl rfl⟩
  rcases hc : cGet st.cache (pyStrip n) with - | entry
  · -- not in the cache
    by_cases hm : cfg.mock_mode = true
    · -- mock mode: no query, no write
      have hq : query_wigle cfg net st n = (none, st) := by
        simp [query_wigle, he, hc, hm]
      rw [hq]
      exact ⟨fun hd => hd, fun _ => Or.inr (Or.inr (Or.inr ⟨hm, hc⟩)),
        by simp [emit, he, hc], Or.inl rfl⟩
    · -- live query
      have hm' : cfg.mock_mode = false := by
        cases hmk : cfg.mock_mode
        · rfl
        · exact absurd hmk hm
      -- uniform treatment of every branch that negative-caches
      have failCase : ∀ reason saves',
          (DiscInv st →
            DiscInv ⟨cSet st.cache (pyStrip n) (CacheEntry.failed reason),
                      st.new_discoveries, saves', st.queries + 1⟩) ∧
          (DiscInv st →
            settledAt cfg (cSet st.cache (pyStrip n) (CacheEntry.failed reason)) n) ∧
          (none : Option LocRecord) =
            emit (cSet st.cache (pyStrip n) (CacheEntry.failed reason)) n ∧
          cacheWriteShape cfg st n (cSet st.cache (pyStrip n) (CacheEntry.failed reason)) := by
        intro reason saves'
        refine ⟨?_, ?_, ?_, ?_⟩
        · intro hd u hu
          exact discinv_write_uncached st.cache st.new_discoveries (pyStrip n) _ hc hd u hu
        · exact fun _ => Or.inr (Or.inl ⟨reason, cGet_cSet_self _ _ _⟩)
        · simp [emit, he, cGet_cSet_self]
        · exact Or.inr ⟨he, _, rfl, Or.inl ⟨hc, hm'⟩⟩
      rcases hnet : net (pyStrip n) with m | code | - | ⟨success, cnt, results⟩
      · have hq : query_wigle cfg net st n =
            (none, { st with
              cache := cSet st.cache (pyStrip n)
                (CacheEntry.failed ("Network error: " ++ m)),
              saves := st.saves + 1, queries := st.queries + 1 }) := by
          simp [query_wigle, he, hc, hm', hnet]
        rw [hq]
        exact failCase _ _
      · have hq : query_wigle cfg net st n =
            (none, { st with
              cache := cSet st.cache (pyStrip n)
                (CacheEntry.failed ("HTTP " ++ toString code)),
              saves := st.saves + 1, queries := st.queries + 1 }) := by
          simp [query_wigle, he, hc, hm', hnet]
        rw [hq]
        exact failCase _ _
      · have hq : query_wigle cfg net st n =
            (none, { st with
              cache := cSet st.cache (pyStrip n) (CacheEntry.failed "Invalid JSON"),
              saves := st.saves + 1, queries := st.queries + 1 }) := by
          simp [query_wigle, he, hc, hm', hnet]
        rw [hq]
        exact failCase _ _
      · -- HTTP 200 with JSON body
        by_cases hok : success = true ∧ 0 < cnt
        · rcases results with - | ⟨r, rs⟩
          · have hq : query_wigle cfg net st n =
                (none, { st with
                  cache := cSet st.cache (pyStrip n)
                    (CacheEntry.failed "No location data found"),
                  saves := st.saves + 1, queries := st.queries + 1 }) := by
              simp [query_wigle, he, hc, hm', hnet, hok]
            rw [hq]
            exact failCase _ _
          · rcases hlat : r.trilat with - | lat
            · have hq : query_wigle cfg net st n =
                  (none, { st with
                    cache := cSet st.cache (pyStrip n)
                      (CacheEntry.failed "No location data found"),
                    saves := st.saves + 1, queries := st.queries + 1 }) := by
                simp [query_wigle, he, hc, hm', hnet, hok, hlat]
              rw [hq]
              exact failCase _ _
            · rcases hlon : r.trilong with - | lon
              · have hq : query_wigle cfg net st n =
                    (none, { st with
                      cache := cSet st.cache (pyStrip n)
                        (CacheEntry.failed "No location data found"),
                      saves := st.saves + 1, queries := st.queries + 1 }) := by
                  simp [query_wigle, he, hc, hm', hnet, hok, hlat, hlon]
                rw [hq]
                exact failCase _ _
              · by_cases hz : lat ≠ 0 ∧ lon ≠ 0
                · by_cases hmap : cfg.generate_individual_maps = true
                  · have hq : query_wigle cfg net st n =
                        (some ⟨pyStrip n, lat, lon, true⟩,
                         { st with
                            cache := cSet st.cache (pyStrip n)
                              (CacheEntry.success ⟨pyStrip n, lat, lon, true⟩),
                            saves := st.saves + 2, queries := st.queries + 1,
                            new_discoveries := pyStrip n :: st.new_discoveries }) := by
                      simp [query_wigle, he, hc, hm', hnet, hok, hlat, hlon, hz, hmap]
                    rw [hq]
                    refine ⟨?_, ?_, ?_, ?_⟩
                    · intro hd u hu
                      rcases List.mem_cons.mp hu with hu | hu
                      · exact ⟨⟨pyStrip n, lat, lon, true⟩,
                          by rw [hu]; exact cGet_cSet_self _ _ _, rfl⟩
                      · exact discinv_write_uncached st.cache st.new_discoveries
                          (pyStrip n) _ hc hd u hu
                    · exact fun _ => Or.inr (Or.inr (Or.inl
                        ⟨⟨pyStrip n, lat, lon, true⟩, cGet_cSet_self _ _ _,
                         fun _ => rfl⟩))
                    · simp [emit, he, cGet_cSet_self]
                    · exact Or.inr ⟨he, _, rfl, Or.inl ⟨hc, hm'⟩⟩
                  · have hmap' : cfg.generate_individual_maps = false := by
                      cases hmk : cfg.generate_individual_maps
                      · rfl
                      · exact absurd hmk hmap
                    have hq : query_wigle cfg net st n =
                        (some ⟨pyStrip n, lat, lon, false⟩,
                         { st with
                            cache := cSet st.cache (pyStrip n)
                              (CacheEntry.success ⟨pyStrip n, lat, lon, false⟩),
                            saves := st.saves + 1, queries := st.queries + 1 }) := by
                      simp [query_wigle, he, hc, hm', hnet, hok, hlat, hlon, hz, hmap']
                    rw [hq]
                    refine ⟨?_, ?_, ?_, ?_⟩
                    · intro hd u hu
                      exact discinv_write_uncached st.cache st.new_discoveries
                        (pyStrip n) _ hc hd u hu
                    · exact fun _ => Or.inr (Or.inr (Or.inl
                        ⟨⟨pyStrip n, lat, lon, false⟩, cGet_cSet_self _ _ _,
                         fun hmk => absurd hmk hmap⟩))
                    · simp [emit, he, cGet_cSet_self]
                    · exact Or.inr ⟨he, _, rfl, Or.inl ⟨hc, hm'⟩⟩
                · have hq : query_wigle cfg net st n =
                      (none, { st with
                        cache := cSet st.cache (pyStrip n)
                          (CacheEntry.failed "No location data found"),
                        saves := st.saves + 1, queries := st.queries + 1 }) := by
                    simp [query_wigle, he, hc, hm', hnet, hok, hlat, hlon, hz]
                  rw [hq]
                  exact failCase _ _
        · have hq : query_wigle cfg net st n =
              (none, { st with
                cache := cSet st.cache (pyStrip n)
                  (CacheEntry.failed "No location data found"),
                saves := st.saves + 1, queries := st.queries + 1 }) := by
            simp [query_wigle, he, hc, hm', hnet, hok]
          rw [hq]
          exact failCase _ _
  · -- in the cache
    rcases entry with lr | reason
    · -- cached success
      by_cases hg : cfg.generate_individual_maps = true ∧
          pyStrip n ∉ st.new_discoveries ∧ lr.map_generated = false
      · have hq : query_wigle cfg net st n =
            (some { lr with map_generated := true },
             { st with
                cache := cSet st.cache (pyStrip n)
                  (CacheEntry.success { lr with map_generated := true }),
                saves := st.saves + 1,
                new_discoveries := pyStrip n :: st.new_discoveries }) := by
          simp [query_wigle, he, hc, hg]
        rw [hq]
        refine ⟨?_, ?_, ?_, ?_⟩
        · intro hd u hu
          rcases List.mem_cons.mp hu with hu | hu
          · exact ⟨{ lr with map_generated := true },
              by rw [hu]; exact cGet_cSet_self _ _ _, rfl⟩
          · obtain ⟨lr₀, hget, hgen⟩ := hd u hu
            have hut : u ≠ pyStrip n := by
              intro h
              exact hg.2.1 (h ▸ hu)
            exact ⟨lr₀, by rw [cGet_cSet_ne _ _ _ _ hut]; exact hget, hgen⟩
        · exact fun _ => Or.inr (Or.inr (Or.inl
            ⟨{ lr with map_generated := true }, cGet_cSet_self _ _ _, fun _ => rfl⟩))
        · simp [emit, he, cGet_cSet_self]
        · exact Or.inr ⟨he, _, rfl, Or.inr ⟨lr, hc, hg.1, hg.2.2⟩⟩
      · have hq : query_wigle cfg net st n = (some lr, st) := by
          simp only [query_wigle]
          rw [if_neg he, hc]
          simp only [if_neg hg]
        rw [hq]
        refine ⟨fun hd => hd, ?_, by simp [emit, he, hc], Or.inl rfl⟩
        intro hd
        refine Or.inr (Or.inr (Or.inl ⟨lr, hc, fun hmap => ?_⟩))
        by_cases hdisc : pyStrip n ∈ st.new_discoveries
        · obtain ⟨lr₀, hget, hgen⟩ := hd _ hdisc
          rw [hc] at hget
          injection hget with hget
          injection hget with hget
          rw [hget]
          exact hgen
        · cases hmg : lr.map_generated
          · exact absurd ⟨hmap, hdisc, hmg⟩ hg
          · rfl
    · -- cached failure
      have hq : query_wigle cfg net st n = (none, st) := by
        simp [query_wigle, he, hc]
      rw [hq]
      exact ⟨fun hd => hd, fun _ => Or.inr (Or.inl ⟨reason, hc⟩),
        by simp [emit, he, hc], Or.inl rfl⟩

/-! ## Batch-level lemmas for `map_all` -/

/-- A whole first run of `map_all`: it maintains the discovery invariant,
settles every processed name, outputs exactly the final cache's memoized
emissions in input order, and never moves already-settled entries. -/
theorem map_all_run (cfg : GeoConfig) (net : String → WigleResponse) :
    ∀ (names : List String) (st : GeoState), DiscInv st →
      DiscInv (map_all cfg net st names).state ∧
      (∀ n ∈ names, settledAt cfg (map_all cfg net st names).state.cache n) ∧
      (map_all cfg net st names).out =
        names.filterMap (emit (map_all cfg net st names).state.cache) ∧
      (∀ m, settledAt cfg st.cache m →
        cGet (map_all cfg net st names).state.cache (pyStrip m) =
          cGet st.cache (pyStrip m)) := by
  intro names
  induction names with
  | nil =>
    intro st hd
    refine ⟨hd, by simp, by simp [map_all], fun m _ => rfl⟩
  | cons n rest ih =>
    intro st hd
    obtain ⟨hd1, hsettle1, hemit1, hshape1⟩ := query_step_master cfg net st n
    have hdp := hd1 hd
    have hsn := hsettle1 hd
    obtain ⟨hdF, hallF, houtF, hstabF⟩ := ih (query_wigle cfg net st n).2 hdp
    have hstate : (map_all cfg net st (n :: rest)).state =
        (map_all cfg net (query_wigle cfg net st n).2 rest).state := by
      simp [map_all]
    have hout : (map_all cfg net st (n :: rest)).out =
        (query_wigle cfg net st n).1.toList ++
          (map_all cfg net (query_wigle cfg net st n).2 rest).out := by
      simp [map_all]
    have hentry_n : cGet (map_all cfg net (query_wigle cfg net st n).2 rest).state.cache
        (pyStrip n) = cGet (query_wigle cfg net st n).2.cache (pyStrip n) :=
      hstabF n hsn
    refine ⟨?_, ?_, ?_, ?_⟩
    · rw [hstate]
      exact hdF
    · intro x hx
      rcases List.mem_cons.mp hx with hx | hx
      · rw [hstate, hx]
        exact settledAt_congr cfg _ _ n hentry_n hsn
      · rw [hstate]
        exact hallF x hx
    · rw [hout, hstate]
      have hn' : (query_wigle cfg net st n).1 =
          emit (map_all cfg net (query_wigle cfg net st n).2 rest).state.cache n := by
        rw [hemit1]
        exact (emit_congr _ _ n hentry_n).symm
      rw [List.filterMap_cons, ← hn', houtF]
      cases (query_wigle cfg net st n).1 <;> simp
    · intro m hm
      rw [hstate]
      have h1 := shape_settled_stable cfg st n _ hshape1 m hm
      have hm2 : settledAt cfg (query_wigle cfg net st n).2.cache m :=
        settledAt_congr cfg _ _ m h1 hm
      rw [hstabF m hm2, h1]

/-- A run of `map_all` over names that are all settled already: the output
is read back from the cache and the state — cache, discoveries, persists,
live queries — is untouched. -/
theorem map_all_settled_run (cfg : GeoConfig) (net : String → WigleResponse) :
    ∀ (names : List String) (st : GeoState),
      (∀ n ∈ names, settledAt cfg st.cache n) →
      (map_all cfg net st names).out = names.filterMap (emit st.cache) ∧
      (map_all cfg net st names).state = st := by
  intro names
  induction names with
  | nil => intro st _; exact ⟨by simp [map_all], rfl⟩
  | cons n rest ih =>
    intro st h
    have hstep := settled_step_id cfg net st n (h n (List.mem_cons_self n rest))
    obtain ⟨hout, hstate⟩ := ih st (fun x hx => h x (List.mem_cons_of_mem n hx))
    constructor
    · show ((query_wigle cfg net st n).1.toList ++
          (map_all cfg net (query_wigle cfg net st n).2 rest).out) = _
      rw [hstep]
      rw [List.filterMap_cons]
      show (emit st.cache n).toList ++ (map_all cfg net st rest).out = _
      rw [hout]
      cases emit st.cache n <;> simp
    · show (map_all cfg net (query_wigle cfg net st n).2 rest).state = st
      rw [hstep]
      exact hstate

/-- `map_all` never overwrites a memoized failure, whatever the batch. -/
theorem map_all_failed_stable (cfg : GeoConfig) (net : String → WigleResponse) :
    ∀ (names : List String) (st : GeoState) (k r : String),
      cGet st.cache k = some (CacheEntry.failed r) →
      cGet (map_all cfg net st names).state.cache k = some (CacheEntry.failed r) := by
  intro names
  induction names with
  | nil => intro st k r hk; exact hk
  | cons n rest ih =>
    intro st k r hk
    have hshape := (query_step_master cfg net st n).2.2.2
    have hk1 := shape_failed_stable cfg st n _ k r hshape hk
    show cGet (map_all cfg net (query_wigle cfg net st n).2 rest).state.cache k = _
    exact ih (query_wigle cfg net st n).2 k r hk1

/-! ## The claims -/

/-- C1: Idempotence of batch resolution — running `map_all` a second time
over the same name list, against the cache persisted by the first run (a
fresh session: empty `new_discoveries`, zeroed effect counters), issues zero
live queries, performs no state change at all (in particular persists
nothing), and returns exactly the first run's output list. -/
theorem C1_resolve_all_idempotent (cfg : GeoConfig) (net : String → WigleResponse)
    (st : GeoState) (names : List String) (hwf : WFNet net)
    (hdisc : st.new_discoveries = []) :
    (map_all cfg net ⟨(map_all cfg net st names).state.cache, [], 0, 0⟩ names).out =
      (map_all cfg net st names).out ∧
    (map_all cfg net ⟨(map_all cfg net st names).state.cache, [], 0, 0⟩ names).state =
      ⟨(map_all cfg net st names).state.cache, [], 0, 0⟩ ∧
    (map_all cfg net ⟨(map_all cfg net st names).state.cache, [], 0, 0⟩ names).state.queries = 0 := by
  have hd : DiscInv st := by
    intro t ht
    rw [hdisc] at ht
    exact absurd ht (List.not_mem_nil t)
  obtain ⟨-, hall, hout1, -⟩ := map_all_run cfg net names st hd
  obtain ⟨hout2, hstate2⟩ := map_all_settled_run cfg net names
    ⟨(map_all cfg net st names).state.cache, [], 0, 0⟩ (fun n hn => hall n hn)
  refine ⟨?_, hstate2, by rw [hstate2]⟩
  rw [hout2, hout1]

/-- Witness for C1 at a concrete batch (a repeated name, live successes). -/
theorem C1_witness :
    (map_all ⟨false, true⟩ (fun _ => WigleResponse.ok true 1 [⟨some 10, some 20⟩])
        ⟨(map_all ⟨false, true⟩ (fun _ => WigleResponse.ok true 1 [⟨some 10, some 20⟩])
            ⟨[], [], 0, 0⟩ ["A", "A"]).state.cache, [], 0, 0⟩ ["A", "A"]).out =
      (map_all ⟨false, true⟩ (fun _ => WigleResponse.ok true 1 [⟨some 10, some 20⟩])
        ⟨[], [], 0, 0⟩ ["A", "A"]).out ∧
    (map_all ⟨false, true⟩ (fun _ => WigleResponse.ok true 1 [⟨some 10, some 20⟩])
        ⟨(map_all ⟨false, true⟩ (fun _ => WigleResponse.ok true 1 [⟨some 10, some 20⟩])
            ⟨[], [], 0, 0⟩ ["A", "A"]).state.cache, [], 0, 0⟩ ["A", "A"]).state =
      ⟨(map_all ⟨false, true⟩ (fun _ => WigleResponse.ok true 1 [⟨some 10, some 20⟩])
          ⟨[], [], 0, 0⟩ ["A", "A"]).state.cache, [], 0, 0⟩ ∧
    (map_all ⟨false, true⟩ (fun _ => WigleResponse.ok true 1 [⟨some 10, some 20⟩])
        ⟨(map_all ⟨false, true⟩ (fun _ => WigleResponse.ok true 1 [⟨some 10, some 20⟩])
            ⟨[], [], 0, 0⟩ ["A", "A"]).state.cache, [], 0, 0⟩ ["A", "A"]).state.queries = 0 :=
  C1_resolve_all_idempotent ⟨false, true⟩
    (fun _ => WigleResponse.ok true 1 [⟨some 10, some 20⟩]) ⟨[], [], 0, 0⟩ ["A", "A"]
    (fun _ => fun _ => by simp) rfl

/-- C4: Negative-result memoization — with a `Failed` record cached for a
(trimmed) name, resolving that name performs no query, no sleep, no cache
or persist mutation, and contributes nothing to the output; and no batch
ever overwrites the `Failed` record. -/
theorem C4_failed_never_retried (cfg : GeoConfig) (net : String → WigleResponse)
    (st : GeoState) (k r : String) (hk : pyStrip k = k)
    (hc : cGet st.cache k = some (CacheEntry.failed r)) :
    query_wigle cfg net st k = (none, st) ∧
    map_all cfg net st [k] = ⟨[], st, 0⟩ ∧
    ∀ names, cGet (map_all cfg net st names).state.cache k =
      some (CacheEntry.failed r) := by
  have hq : query_wigle cfg net st k = (none, st) := by
    by_cases he : pyStrip k = ""
    · simp [query_wigle, he]
    · simp [query_wigle, he, hk, hc]
  refine ⟨hq, ?_, fun names => map_all_failed_stable cfg net names st k r hc⟩
  simp [map_all, hq]

/-- Witness for C4: the spec's own example, `Foo` cached as a failure. -/
theorem C4_witness :
    query_wigle ⟨false, true⟩ (fun _ => WigleResponse.badJson)
        ⟨[("Foo", CacheEntry.failed "No location data found")], [], 0, 0⟩ "Foo" =
      (none, ⟨[("Foo", CacheEntry.failed "No location data found")], [], 0, 0⟩) ∧
    map_all ⟨false, true⟩ (fun _ => WigleResponse.badJson)
        ⟨[("Foo", CacheEntry.failed "No location data found")], [], 0, 0⟩ ["Foo"] =
      ⟨[], ⟨[("Foo", CacheEntry.failed "No location data found")], [], 0, 0⟩, 0⟩ ∧
    ∀ names, cGet (map_all ⟨false, true⟩ (fun _ => WigleResponse.badJson)
        ⟨[("Foo", CacheEntry.failed "No location data found")], [], 0, 0⟩
        names).state.cache "Foo" =
      some (CacheEntry.failed "No location data found") :=
  C4_failed_never_retried _ _ _ _ _ (by decide) (by decide)

/-- C5: Mock mode is a pure no-op on uncached names — no query, no result,
no cache entry added, nothing persisted, and no sleep in a batch. -/
theorem C5_mock_mode_frame (cfg : GeoConfig) (net : String → WigleResponse)
    (st : GeoState) (n : String) (hm : cfg.mock_mode = true)
    (hc : cGet st.cache (pyStrip n) = none) :
    query_wigle cfg net st n = (none, st) ∧
    map_all cfg net st [n] = ⟨[], st, 0⟩ := by
  have hq : query_wigle cfg net st n = (none, st) := by
    by_cases he : pyStrip n = ""
    · simp [query_wigle, he]
    · simp [query_wigle, he, hc, hm]
  exact ⟨hq, by simp [map_all, hq]⟩

/-- Witness for C5: mock mode on an uncached name. -/
theorem C5_witness :
    query_wigle ⟨true, true⟩ (fun _ => WigleResponse.ok true 1 [⟨some 10, some 20⟩])
        ⟨[], [], 0, 0⟩ "MyHome_5G" = (none, ⟨[], [], 0, 0⟩) ∧
    map_all ⟨true, true⟩ (fun _ => WigleResponse.ok true 1 [⟨some 10, some 20⟩])
        ⟨[], [], 0, 0⟩ ["MyHome_5G"] = ⟨[], ⟨[], [], 0, 0⟩, 0⟩ :=
  C5_mock_mode_frame _ _ _ _ rfl rfl

/-- C10: a WiGLE success whose first result carries latitude 0 or longitude
0 (even with the other coordinate valid and nonzero) is treated as having
no coordinates — the `if lat and lon` truthiness test — so the resolver
returns nothing and negative-caches the name as `No location data found`,
after one live query and one persist. -/
theorem C10_zero_coordinate_no_result (cfg : GeoConfig) (net : String → WigleResponse)
    (st : GeoState) (n : String) (r : WigleResult) (rs : List WigleResult) (cnt : Int)
    (hm : cfg.mock_mode = false) (ht : pyStrip n ≠ "")
    (hc : cGet st.cache (pyStrip n) = none)
    (hnet : net (pyStrip n) = WigleResponse.ok true cnt (r :: rs)) (hcnt : 0 < cnt)
    (hz : r.trilat = some 0 ∨ r.trilong = some 0) :
    query_wigle cfg net st n =
      (none, { st with
        cache := cSet st.cache (pyStrip n) (CacheEntry.failed "No location data found"),
        saves := st.saves + 1, queries := st.queries + 1 }) := by
  rcases hz with hz | hz
  · rcases hlon : r.trilong with - | lon
    · simp [query_wigle, ht, hc, hm, hnet, hcnt, hz, hlon]
    · simp [query_wigle, ht, hc, hm, hnet, hcnt, hz, hlon]
  · rcases hlat : r.trilat with - | lat
    · simp [query_wigle, ht, hc, hm, hnet, hcnt, hz, hlat]
    · simp [query_wigle, ht, hc, hm, hnet, hcnt, hz, hlat]

/-- Witness for C10: latitude exactly 0, longitude a valid nonzero value. -/
theorem C10_witness :
    query_wigle ⟨false, false⟩
        (fun _ => WigleResponse.ok true 1 [⟨some 0, some 48⟩]) ⟨[], [], 0, 0⟩ "Foo" =
      (none, ⟨[("Foo", CacheEntry.failed "No location data found")], [], 1, 1⟩) := by
  have h := C10_zero_coordinate_no_result ⟨false, false⟩
    (fun _ => WigleResponse.ok true 1 [⟨some 0, some 48⟩]) ⟨[], [], 0, 0⟩ "Foo"
    ⟨some 0, some 48⟩ [] 1 rfl (by decide) rfl rfl (by decide) (Or.inl rfl)
  rw [h]
  decide

/-- C2, counterexample: a live lookup returning the out-of-range (but
truthy) coordinates (100, 50) — rejected by `validate_coordinates` — is
nevertheless returned by the resolver and cached as a *success* record, so
invalid coordinates are not classified as a `no_result` failure before
caching. -/
theorem C2_counterexample :
    (validate_coordinates 100 50).1 = false ∧
    (query_wigle ⟨false, false⟩ (fun _ => WigleResponse.ok true 1 [⟨some 100, some 50⟩])
        ⟨[], [], 0, 0⟩ "Foo").1 = some ⟨"Foo", 100, 50, false⟩ ∧
    cGet (query_wigle ⟨false, false⟩ (fun _ => WigleResponse.ok true 1 [⟨some 100, some 50⟩])
        ⟨[], [], 0, 0⟩ "Foo").2.cache "Foo" =
      some (CacheEntry.success ⟨"Foo", 100, 50, false⟩) := by
  decide

/-- C2, amended: on a live lookup with truthy coordinates the resolver
caches and persists a success record *without* any range validation; the
coordinate-validity rule is applied afterwards by the driver loop of
`main.py`, which appends to the output exactly when the coordinates are
valid — an invalid-but-truthy pair therefore stays cached as a success
while being excluded from the output. -/
theorem C2_validation_after_caching (cfg : GeoConfig) (net : String → WigleResponse)
    (st : GeoState) (n : String) (lat lon : ℚ) (cnt : Int) (rs : List WigleResult)
    (hm : cfg.mock_mode = false) (ht : pyStrip n ≠ "")
    (hc : cGet st.cache (pyStrip n) = none)
    (hnet : net (pyStrip n) = WigleResponse.ok true cnt (⟨some lat, some lon⟩ :: rs))
    (hcnt : 0 < cnt) (hlat : lat ≠ 0) (hlon : lon ≠ 0) :
    (query_wigle cfg net st n).1 =
      some ⟨pyStrip n, lat, lon, cfg.generate_individual_maps⟩ ∧
    cGet (query_wigle cfg net st n).2.cache (pyStrip n) =
      some (CacheEntry.success ⟨pyStrip n, lat, lon, cfg.generate_individual_maps⟩) ∧
    st.saves < (query_wigle cfg net st n).2.saves ∧
    (main_process cfg net st [n]).out =
      (if (validate_coordinates lat lon).1 then
        [⟨pyStrip n, lat, lon, cfg.generate_individual_maps⟩] else []) := by
  by_cases hmap : cfg.generate_individual_maps = true
  · have hq : query_wigle cfg net st n =
        (some ⟨pyStrip n, lat, lon, true⟩,
         { st with
            cache := cSet st.cache (pyStrip n)
              (CacheEntry.success ⟨pyStrip n, lat, lon, true⟩),
            saves := st.saves + 2, queries := st.queries + 1,
            new_discoveries := pyStrip n :: st.new_discoveries }) := by
      simp [query_wigle, ht, hc, hm, hnet, hcnt, hlat, hlon, hmap]
    rw [hmap]
    refine ⟨by rw [hq], by rw [hq]; exact cGet_cSet_self _ _ _,
      by rw [hq]; show st.saves < st.saves + 2; omega, ?_⟩
    cases hv : (validate_coordinates lat lon).1 <;> simp [main_process, hq, hv]
  · have hmap' : cfg.generate_individual_maps = false := by
      cases hmk : cfg.generate_individual_maps
      · rfl
      · exact absurd hmk hmap
    have hq : query_wigle cfg net st n =
        (some ⟨pyStrip n, lat, lon, false⟩,
         { st with
            cache := cSet st.cache (pyStrip n)
              (CacheEntry.success ⟨pyStrip n, lat, lon, false⟩),
            saves := st.saves + 1, queries := st.queries + 1 }) := by
      simp [query_wigle, ht, hc, hm, hnet, hcnt, hlat, hlon, hmap']
    rw [hmap']
    refine ⟨by rw [hq], by rw [hq]; exact cGet_cSet_self _ _ _,
      by rw [hq]; show st.saves < st.saves + 1; omega, ?_⟩
    cases hv : (validate_coordinates lat lon).1 <;> simp [main_process, hq, hv]

/-- Witness for C2 (amended): invalid truthy coordinates (100, 50) are
cached as success, persisted, and excluded from the driver's output. -/
theorem C2_witness :
    (query_wigle ⟨false, false⟩ (fun _ => WigleResponse.ok true 1 [⟨some 100, some 50⟩])
        ⟨[], [], 0, 0⟩ "Foo").1 = some ⟨pyStrip "Foo", 100, 50, false⟩ ∧
    cGet (query_wigle ⟨false, false⟩ (fun _ => WigleResponse.ok true 1 [⟨some 100, some 50⟩])
        ⟨[], [], 0, 0⟩ "Foo").2.cache (pyStrip "Foo") =
      some (CacheEntry.success ⟨pyStrip "Foo", 100, 50, false⟩) ∧
    (⟨[], [], 0, 0⟩ : GeoState).saves <
      (query_wigle ⟨false, false⟩ (fun _ => WigleResponse.ok true 1 [⟨some 100, some 50⟩])
        ⟨[], [], 0, 0⟩ "Foo").2.saves ∧
    (main_process ⟨false, false⟩ (fun _ => WigleResponse.ok true 1 [⟨some 100, some 50⟩])
        ⟨[], [], 0, 0⟩ ["Foo"]).out =
      (if (validate_coordinates 100 50).1 then [⟨pyStrip "Foo", 100, 50, false⟩] else []) :=
  C2_validation_after_caching ⟨false, false⟩
    (fun _ => WigleResponse.ok true 1 [⟨some 100, some 50⟩]) ⟨[], [], 0, 0⟩ "Foo"
    100 50 1 [] rfl (by decide) rfl rfl (by decide) (by decide) (by decide)

/-- C3 (code divergence): the sleep guard of `map_all` line 188 tests
`ssid not in self.cache` *after* `query_wigle` has already cached the live
outcome under the trimmed name.  (a) A batch of two uncached names issues
two live queries and sleeps zero times — the configured delay never runs
after a live query on a trimmed name.  (b) Conversely a raw name with
leading whitespace hits the cache (no live query for it) yet *is* followed
by a sleep, because the raw name differs from the cached trimmed key. -/
theorem C3_sleep_guard_checks_cache_after_query :
    ((map_all ⟨false, false⟩ (fun _ => WigleResponse.ok true 1 [⟨some 10, some 20⟩])
        ⟨[], [], 0, 0⟩ ["Foo", "Bar"]).state.queries = 2 ∧
     (map_all ⟨false, false⟩ (fun _ => WigleResponse.ok true 1 [⟨some 10, some 20⟩])
        ⟨[], [], 0, 0⟩ ["Foo", "Bar"]).sleeps = 0) ∧
    ((map_all ⟨false, false⟩ (fun _ => WigleResponse.ok true 1 [⟨some 10, some 20⟩])
        ⟨[("Foo", CacheEntry.success ⟨"Foo", 1, 2, false⟩)], [], 0, 0⟩
        [" Foo", "Bar"]).state.queries = 1 ∧
     (map_all ⟨false, false⟩ (fun _ => WigleResponse.ok true 1 [⟨some 10, some 20⟩])
        ⟨[("Foo", CacheEntry.success ⟨"Foo", 1, 2, false⟩)], [], 0, 0⟩
        [" Foo", "Bar"]).sleeps = 1) := by
  decide

/-- C8: `validate_coordinates` accepts exactly the numeric pairs with
latitude in [-90, 90], longitude in [-180, 180], excluding exactly (0, 0). -/
theorem C8_validate_coordinates_characterization (lat lon : ℚ) :
    (validate_coordinates lat lon).1 = true ↔
      (-90 ≤ lat ∧ lat ≤ 90 ∧ -180 ≤ lon ∧ lon ≤ 180 ∧ ¬ (lat = 0 ∧ lon = 0)) := by
  unfold validate_coordinates
  split_ifs with h1 h2 h3 <;> simp_all

/-- C9: cache loading treats a missing file as an empty store and recovers
from a corrupt (undeserializable) file by returning an empty store; it has
no failure mode. -/
theorem C9_load_cache_never_fatal (parse : String → Option Cache) (s : String)
    (hbad : parse s = none) :
    load_cache none parse = [] ∧ load_cache (some s) parse = [] :=
  ⟨rfl, by simp [load_cache, hbad]⟩

/-- Witness for C9: a parse function rejecting its input. -/
theorem C9_witness :
    load_cache none (fun _ => none) = [] ∧
    load_cache (some "corrupt") (fun _ => none) = [] :=
  C9_load_cache_never_fatal (fun _ => none) "corrupt" rfl

/-! ## Lemmas about the extractor -/

/-- `firstRejection` unfolded to the source's if-chain of rules. -/
theorem firstRejection_eq (s : String) :
    firstRejection s =
      (if ruleEmpty s then some "empty"
       else if ruleInvalidLength s then some "invalid_length"
       else if rulePlaceholderZeros s then some "placeholder_zeros"
       else if ruleWildcard s then some "wildcard"
       else if ruleHexPattern s then some "hex_pattern"
       else if ruleNoAlphanumeric s then some "no_alphanumeric"
       else if ruleInvalidChars s then some "invalid_characters"
       else if ruleCommonPlaceholder s then some "common_placeholder"
       else none) := by
  cases h1 : ruleEmpty s
  · cases h2 : ruleInvalidLength s
    · cases h3 : rulePlaceholderZeros s
      · cases h4 : ruleWildcard s
        · cases h5 : ruleHexPattern s
          · cases h6 : ruleNoAlphanumeric s
            · cases h7 : ruleInvalidChars s
              · cases h8 : ruleCommonPlaceholder s
                · simp [firstRejection, ruleList, List.find?, h1, h2, h3, h4, h5, h6, h7, h8]
                · simp [firstRejection, ruleList, List.find?, h1, h2, h3, h4, h5, h6, h7, h8]
              · simp [firstRejection, ruleList, List.find?, h1, h2, h3, h4, h5, h6, h7]
            · simp [firstRejection, ruleList, List.find?, h1, h2, h3, h4, h5, h6]
          · simp [firstRejection, ruleList, List.find?, h1, h2, h3, h4, h5]
        · simp [firstRejection, ruleList, List.find?, h1, h2, h3, h4]
      · simp [firstRejection, ruleList, List.find?, h1, h2, h3]
    · simp [firstRejection, ruleList, List.find?, h1, h2]
  · simp [firstRejection, ruleList, List.find?, h1]

/-- Bumping a reason raises its own tally by exactly one. -/
theorem reasonCount_bump_self (m : List (String × Nat)) (r : String) :
    reasonCount (bump m r) r = reasonCount m r + 1 := by
  induction m with
  | nil => simp [bump, reasonCount]
  | cons hd tl ih =>
    obtain ⟨k, v⟩ := hd
    by_cases h : k = r <;> simp [bump, reasonCount, h, ih]

/-- Bumping a reason leaves every other tally unchanged. -/
theorem reasonCount_bump_ne (m : List (String × Nat)) (r r' : String)
    (h : r' ≠ r) : reasonCount (bump m r) r' = reasonCount m r' := by
  have h' : ¬ r = r' := fun hh => h hh.symm
  induction m with
  | nil => simp [bump, reasonCount, h']
  | cons hd tl ih =>
    obtain ⟨k, v⟩ := hd
    by_cases hk : k = r
    · subst hk
      simp [bump, reasonCount, h']
    · simp only [bump, if_neg hk, reasonCount]
      by_cases hk' : k = r' <;> simp [hk', ih]

/-- Only-quote strings are emptied by the quote-strip of line 22. -/
theorem stripQuotes_of_all_quotes (s : String)
    (hq : ∀ c ∈ s.toList, c = '"') : stripQuotes s = "" := by
  unfold stripQuotes dropEnds
  have hdrop : s.toList.dropWhile (fun c => c = '"') = [] :=
    List.dropWhile_eq_nil_iff.mpr (fun x hx => by simp [hq x hx])
  rw [hdrop]
  rfl

/-- C6: validation applies the rules in the fixed order empty,
invalid_length, placeholder_zeros, wildcard, hex_pattern, no_alphanumeric,
invalid_characters, common_placeholder, the first matching rule determining
the single rejection reason; the 18-zeros string (which also matches the
hex rule) is classified `placeholder_zeros`; and each rejected candidate is
kept out of the validated set, counted once in the total, and bumps exactly
its own reason tally by one. -/
theorem C6_first_match_classification :
    (∀ s, is_valid_ssid s =
      match firstRejection s with
      | some r => (false, r)
      | none => (true, "valid")) ∧
    is_valid_ssid "000000000000000000" = (false, "placeholder_zeros") ∧
    ruleHexPattern "000000000000000000" = true ∧
    (∀ st line g r, extractCandidate line = some g →
      is_valid_ssid (pyStrip g) = (false, r) →
      (processLine st line).ssids = st.ssids ∧
      (processLine st line).filtered_count = st.filtered_count + 1 ∧
      reasonCount (processLine st line).filter_reasons r =
        reasonCount st.filter_reasons r + 1 ∧
      ∀ r', r' ≠ r →
        reasonCount (processLine st line).filter_reasons r' =
          reasonCount st.filter_reasons r') := by
  refine ⟨?_, by decide, by decide, ?_⟩
  · intro s
    rw [firstRejection_eq s]
    unfold is_valid_ssid
    split_ifs <;> rfl
  · intro st line g r hline hval
    have hP : processLine st line =
        { st with filtered_count := st.filtered_count + 1,
                  filter_reasons := bump st.filter_reasons r } := by
      simp [processLine, hline, hval]
    rw [hP]
    exact ⟨rfl, rfl, reasonCount_bump_self _ _, fun r' hr' => reasonCount_bump_ne _ _ _ hr'⟩

/-- Witness for C6: a concrete rejected candidate (`0000abc`, reason
`placeholder_zeros`) processed against a non-empty extraction state. -/
theorem C6_witness :
    (processLine ⟨["X"], 3, [("wildcard", 2)]⟩ "SSID=\"0000abc\"").ssids = ["X"] ∧
    (processLine ⟨["X"], 3, [("wildcard", 2)]⟩ "SSID=\"0000abc\"").filtered_count = 3 + 1 ∧
    reasonCount (processLine ⟨["X"], 3, [("wildcard", 2)]⟩
        "SSID=\"0000abc\"").filter_reasons "placeholder_zeros" =
      reasonCount [("wildcard", 2)] "placeholder_zeros" + 1 ∧
    (∀ r', r' ≠ "placeholder_zeros" →
      reasonCount (processLine ⟨["X"], 3, [("wildcard", 2)]⟩
          "SSID=\"0000abc\"").filter_reasons r' =
        reasonCount [("wildcard", 2)] r') :=
  C6_first_match_classification.2.2.2 ⟨["X"], 3, [("wildcard", 2)]⟩
    "SSID=\"0000abc\"" "0000abc" "placeholder_zeros" (by decide) (by decide)

/-- C7, counterexample: the capture line `SSID="` yields the candidate `"`
(a single quote character), which is empty after quote-and-whitespace
trimming, yet is classified `invalid_length` — not `empty` — because the
quote-strip of line 22 runs only after the empty check of line 18. -/
theorem C7_counterexample :
    extractCandidate "SSID=\"" = some "\"" ∧
    stripQuotes (pyStrip "\"") = "" ∧
    is_valid_ssid (pyStrip "\"") = (false, "invalid_length") := by
  decide

/-- C7, amended: leading/trailing whitespace is trimmed before validation,
so a candidate empty after the whitespace trim is classified `empty`; but
surrounding quotes are stripped only after the empty check, so a non-empty
candidate consisting solely of quote characters is classified
`invalid_length`, and `empty` is produced exactly for the already-empty
string. -/
theorem C7_trim_then_validate :
    (∀ st line g, extractCandidate line = some g → pyStrip g = "" →
      processLine st line =
        { st with filtered_count := st.filtered_count + 1,
                  filter_reasons := bump st.filter_reasons "empty" }) ∧
    (∀ s, is_valid_ssid s = (false, "empty") ↔ s = "") ∧
    (∀ s, s ≠ "" → (∀ c ∈ s.toList, c = '"') →
      is_valid_ssid s = (false, "invalid_length")) := by
  refine ⟨?_, ?_, ?_⟩
  · intro st line g hline hg
    have hempty : is_valid_ssid "" = (false, "empty") := by decide
    simp [processLine, hline, hg, hempty]
  · intro s
    unfold is_valid_ssid
    split_ifs with h1 h2 h3 h4 h5 h6 h7 h8 <;> simp_all [ruleEmpty]
  · intro s hs hq
    have h1 : ruleEmpty s = false := by
      simp [ruleEmpty, hs]
    have h2 : ruleInvalidLength s = true := by
      simp [ruleInvalidLength, stripQuotes_of_all_quotes s hq]
    simp [is_valid_ssid, h1, h2]

/-- Witness for C7 (amended) at concrete candidates. -/
theorem C7_witness :
    processLine ⟨[], 0, []⟩ "SSID=\"\"" = ⟨[], 0 + 1, bump [] "empty"⟩ ∧
    (is_valid_ssid "\"\"" = (false, "empty") ↔ ("\"\"" : String) = "") ∧
    is_valid_ssid "\"" = (false, "invalid_length") :=
  ⟨C7_trim_then_validate.1 ⟨[], 0, []⟩ "SSID=\"\"" "" (by decide) (by decide),
   C7_trim_then_validate.2.1 "\"\"",
   C7_trim_then_validate.2.2 "\"" (by decide) (by decide)⟩
